import Mathlib

/-!
Shallow embedding of the session/data-synchronization controller of the
smart-bookmark single-page application, translated from src/app/page.tsx
(the variant at the named path; src/unnamed/part_001 is an earlier copy of
the same component that differs only in the SIGNED_IN branch and in the
sign-in redirect computation).

State held by the component (the useState hooks plus the useEffect-local
channel variable) is collected into one record, HomeState. Every gateway
interaction (select, insert, delete, OAuth initiation) is modelled by
passing the gateway response as an explicit argument to the handler that
awaits it, and by returning the call the handler issues, so that theorems
can speak both about the request that was sent and about how the response
is applied. Console logging is modelled as a list of messages.
-/

/-- Bookmark record as declared by the source interface: id, title, url,
user_id and an optional created_at. -/
structure Bookmark where
  id : String
  title : String
  url : String
  user_id : String
  created_at : Option String
  deriving DecidableEq, Repr

/-- Result of the gateway select call. The supabase client resolves with a
record holding data and error fields; the source first checks error, then
reads data, which may itself be null (modelled as Option). -/
inductive SelectResp where
  | err (msg : String)
  | ok (data : Option (List Bookmark))
  deriving DecidableEq, Repr

/-- The whole mutable state of the Home component: the user and bookmarks
useState hooks, the title and url input hooks, the useEffect-local channel
variable, the set of realtime channels currently subscribed (to count open
handles), a fresh-handle counter, and the console-error log. -/
structure HomeState where
  user : Option String
  bookmarks : List Bookmark
  title : String
  url : String
  channelVar : Option Nat
  openChannels : List Nat
  nextHandle : Nat
  log : List String
  deriving DecidableEq, Repr

/-- Initial component state: all useState hooks at their initial values and
the channel variable null, no channel subscribed, nothing logged. -/
def s0 : HomeState :=
  { user := none, bookmarks := [], title := "", url := "",
    channelVar := none, openChannels := [], nextHandle := 0, log := [] }

/-- The select query fetchBookmarks issues: from("bookmarks"), select all,
eq("user_id", userId), order by created_at descending. -/
structure SelectQuery where
  table : String
  eqUserId : Option String
  orderDescCreatedAt : Bool
  deriving DecidableEq, Repr

/-- The query built inside fetchBookmarks before awaiting the gateway. -/
def fetchBookmarksCall (userId : String) : SelectQuery :=
  { table := "bookmarks", eqUserId := some userId, orderDescCreatedAt := true }

/-- fetchBookmarks(userId), given the gateway response to its select: on
error it logs and returns (the previous collection stays); on success it
replaces the collection wholesale with data or the empty list when data is
null. It is a total function into HomeState: no outcome is thrown. It never
consults the current user hook, and applies no owner predicate of its own
to the returned records. -/
def fetchBookmarks (userId : String) (resp : SelectResp) (s : HomeState) : HomeState :=
  match resp with
  | .err e => { s with log := e :: s.log }
  | .ok data => { s with bookmarks := data.getD [] }

/-- A gateway that honors the eq("user_id", _) filter of a query: it keeps
exactly the rows whose user_id matches. -/
def gatewayFilter (db : List Bookmark) (q : SelectQuery) : List Bookmark :=
  match q.eqUserId with
  | none => db
  | some uid => db.filter (fun b => b.user_id == uid)

/-- setupRealtime(userId): builds a channel on postgres_changes filtered to
user_id=eq.userId and subscribes it. Modelled as allocating a fresh handle
and adding it to the open set; the returned handle is what the caller
stores in the channel variable. -/
def setupRealtime (s : HomeState) : Nat × HomeState :=
  (s.nextHandle,
   { s with openChannels := s.nextHandle :: s.openChannels,
            nextHandle := s.nextHandle + 1 })

/-- Auth events delivered by onAuthStateChange, as matched by the source. -/
inductive AuthEvent where
  | signedIn
  | tokenRefreshed
  | signedOut
  deriving DecidableEq, Repr

/-- One controller step: either the session-handling part of init()
resolving (with the session getSession returned and the response to the
fetch it triggers), or one auth event being handled (with its session
payload and fetch response). init() is its own event because its body runs
asynchronously after the listener is installed, so its continuation is
scheduled like any other handler. -/
inductive Event where
  | initEv (session : Option String) (resp : SelectResp)
  | authEv (e : AuthEvent) (session : Option String) (resp : SelectResp)
  deriving DecidableEq, Repr

/-- Whether an event is an auth event rather than the init continuation. -/
def Event.isAuth : Event → Bool
  | .initEv _ _ => false
  | .authEv _ _ _ => true

/-- The session-handling block of init(): if getSession returned a user,
set the user hook, run fetchBookmarks, and assign channel = setupRealtime
unconditionally — the source has no null-check on channel here. -/
def stepInit (session : Option String) (resp : SelectResp) (s : HomeState) : HomeState :=
  match session with
  | none => s
  | some uid =>
    let s1 := fetchBookmarks uid resp { s with user := some uid }
    let hs := setupRealtime s1
    { hs.2 with channelVar := some hs.1 }

/-- The shared SIGNED_IN / TOKEN_REFRESHED branch of the auth handler:
with a user present, set the user hook, await fetchBookmarks, and open a
channel only when the channel variable is null (fetchBookmarks never
touches the channel variable, so the null-check reads the incoming one). -/
def stepSignedIn (session : Option String) (resp : SelectResp) (s : HomeState) : HomeState :=
  match session with
  | none => s
  | some uid =>
    let s1 := fetchBookmarks uid resp { s with user := some uid }
    match s.channelVar with
    | some _ => s1
    | none =>
      let hs := setupRealtime s1
      { hs.2 with channelVar := some hs.1 }

/-- The onAuthStateChange handler. SIGNED_IN and TOKEN_REFRESHED share one
branch. SIGNED_OUT: null the user hook, empty the collection, and
removeChannel the stored channel when the variable is non-null; the source
does not reset the variable to null afterwards. -/
def stepAuth (e : AuthEvent) (session : Option String) (resp : SelectResp)
    (s : HomeState) : HomeState :=
  match e with
  | .signedIn | .tokenRefreshed => stepSignedIn session resp s
  | .signedOut =>
    match s.channelVar with
    | none => { s with user := none, bookmarks := [] }
    | some h =>
      { s with user := none, bookmarks := [], openChannels := s.openChannels.erase h }

/-- Dispatch one event to its handler. -/
def step (s : HomeState) (ev : Event) : HomeState :=
  match ev with
  | .initEv sess resp => stepInit sess resp s
  | .authEv e sess resp => stepAuth e sess resp s

/-- Process a sequence of events in order. -/
def run (s : HomeState) (evs : List Event) : HomeState :=
  evs.foldl step s

/-- signIn(): requests the OAuth redirect and logs on initiation error.
It touches neither the user hook nor the bookmarks hook. The argument is
the error field of the gateway result (none on success). -/
def signIn (res : Option String) (s : HomeState) : HomeState :=
  match res with
  | some e => { s with log := ("Google login error: " ++ e) :: s.log }
  | none => s

/-- signOut(): awaits the backend sign-out, then eagerly nulls the user
hook and empties the collection. -/
def signOut (s : HomeState) : HomeState :=
  { s with user := none, bookmarks := [] }

/-- The insert call addBookmark issues when it proceeds. -/
structure InsertCall where
  table : String
  title : String
  url : String
  user_id : String
  deriving DecidableEq, Repr

/-- addBookmark(): returns early when title or url is the empty string or
the user hook is null (JavaScript falsiness of the three guards), issuing
no gateway call; otherwise issues the insert, and on success clears the
two input hooks while on error it logs. Returns the updated state together
with the call issued, if any. -/
def addBookmark (s : HomeState) (resp : Option String) : HomeState × Option InsertCall :=
  if s.title = "" ∨ s.url = "" ∨ s.user = none then (s, none)
  else
    match s.user with
    | none => (s, none)
    | some uid =>
      match resp with
      | some e =>
        ({ s with log := e :: s.log },
         some { table := "bookmarks", title := s.title, url := s.url, user_id := uid })
      | none =>
        ({ s with title := "", url := "" },
         some { table := "bookmarks", title := s.title, url := s.url, user_id := uid })

/-- The delete call deleteBookmark issues: delete from the table filtered
by eq("id", id) and eq("user_id", uid). -/
structure DeleteCall where
  table : String
  eqId : String
  eqUserId : String
  deriving DecidableEq, Repr

/-- deleteBookmark(id): returns early when the user hook is null; otherwise
issues the filtered delete and, only when the delete reported no error,
awaits fetchBookmarks for the current user (given its select response).
The error branch does nothing at all: the source has no else and no
console.error here. -/
def deleteBookmark (id : String) (delResp : Option String) (selResp : SelectResp)
    (s : HomeState) : HomeState × Option DeleteCall :=
  match s.user with
  | none => (s, none)
  | some uid =>
    match delResp with
    | some _ => (s, some { table := "bookmarks", eqId := id, eqUserId := uid })
    | none =>
      (fetchBookmarks uid selResp s,
       some { table := "bookmarks", eqId := id, eqUserId := uid })

/-- A backend applying a delete call: it removes exactly the rows matching
both eq filters of the call. -/
def applyDelete (db : List Bookmark) (c : DeleteCall) : List Bookmark :=
  db.filter (fun b => !(b.id == c.eqId && b.user_id == c.eqUserId))

/-! ### Concrete states and event sequences used as inputs below -/

/-- A bookmark owned by user u. -/
def bU : Bookmark :=
  { id := "b1", title := "T", url := "http://x", user_id := "u", created_at := none }

/-- A bookmark owned by a different user than alice. -/
def mallory : Bookmark :=
  { id := "m1", title := "T", url := "http://x", user_id := "mallory", created_at := none }

/-- A signed-in state for user u holding one bookmark. -/
def sC2 : HomeState := { s0 with user := some "u", bookmarks := [bU] }

/-- A signed-in state for user u with one open channel stored in the
channel variable. -/
def sC4 : HomeState :=
  { s0 with user := some "u", channelVar := some 0, openChannels := [0], nextHandle := 1 }

/-- A signed-in state whose title input is empty and url input is set. -/
def sC7 : HomeState := { s0 with user := some "u", url := "http://x" }

/-- A signed-in state for user u with empty collection and empty log. -/
def sC8 : HomeState := { s0 with user := some "u" }

/-- An event sequence of auth events only: sign in, sign out, refresh. -/
def C1evs : List Event :=
  [Event.authEv AuthEvent.signedIn (some "u") (SelectResp.ok (some [])),
   Event.authEv AuthEvent.signedOut none (SelectResp.ok none),
   Event.authEv AuthEvent.tokenRefreshed (some "u") (SelectResp.ok (some []))]

/-- A SIGNED_IN event handled before the init continuation resolves: the
schedule in which getSession is still pending when the auth event fires. -/
def C1bad : List Event :=
  [Event.authEv AuthEvent.signedIn (some "u") (SelectResp.ok (some [])),
   Event.initEv (some "u") (SelectResp.ok (some []))]

/-! ### Single-subscription invariant -/

/-- At most one channel is open, and any open channel is the one the
channel variable holds. -/
def subInv (s : HomeState) : Prop :=
  s.openChannels.length ≤ 1 ∧ ∀ h ∈ s.openChannels, s.channelVar = some h

theorem fetchBookmarks_channelVar (uid : String) (resp : SelectResp) (s : HomeState) :
    (fetchBookmarks uid resp s).channelVar = s.channelVar := by
  cases resp <;> rfl

theorem fetchBookmarks_openChannels (uid : String) (resp : SelectResp) (s : HomeState) :
    (fetchBookmarks uid resp s).openChannels = s.openChannels := by
  cases resp <;> rfl

theorem fetchBookmarks_nextHandle (uid : String) (resp : SelectResp) (s : HomeState) :
    (fetchBookmarks uid resp s).nextHandle = s.nextHandle := by
  cases resp <;> rfl

theorem subInv_stepSignedIn (sess : Option String) (resp : SelectResp)
    (s : HomeState) (h : subInv s) : subInv (stepSignedIn sess resp s) := by
  obtain ⟨hlen, hmem⟩ := h
  cases sess with
  | none => exact ⟨hlen, hmem⟩
  | some uid =>
    cases hc : s.channelVar with
    | some ch =>
      refine ⟨?_, ?_⟩
      · simpa [stepSignedIn, hc, fetchBookmarks_openChannels] using hlen
      · intro x hx
        simp only [stepSignedIn, hc, fetchBookmarks_openChannels] at hx ⊢
        rw [fetchBookmarks_channelVar]
        have hx2 := hmem x hx
        rw [hc] at hx2
        exact hx2
    | none =>
      have hempty : s.openChannels = [] := by
        cases hO : s.openChannels with
        | nil => rfl
        | cons a l =>
          have ha := hmem a (by rw [hO]; exact List.mem_cons_self a l)
          rw [hc] at ha
          exact Option.noConfusion ha
      refine ⟨?_, ?_⟩
      · simp [stepSignedIn, hc, setupRealtime, fetchBookmarks_openChannels, hempty]
      · intro x hx
        simp only [stepSignedIn, hc, setupRealtime, fetchBookmarks_openChannels,
          fetchBookmarks_nextHandle, hempty, List.mem_singleton] at hx
        simp [stepSignedIn, hc, setupRealtime, fetchBookmarks_nextHandle, hx]

theorem subInv_stepAuth (e : AuthEvent) (sess : Option String) (resp : SelectResp)
    (s : HomeState) (h : subInv s) : subInv (stepAuth e sess resp s) := by
  cases e with
  | signedIn => exact subInv_stepSignedIn sess resp s h
  | tokenRefreshed => exact subInv_stepSignedIn sess resp s h
  | signedOut =>
    obtain ⟨hlen, hmem⟩ := h
    cases hc : s.channelVar with
    | none =>
      refine ⟨?_, ?_⟩
      · simpa [stepAuth, hc] using hlen
      · intro x hx
        simp only [stepAuth, hc] at hx ⊢
        have hx2 := hmem x hx
        rw [hc] at hx2
        exact hx2
    | some ch =>
      refine ⟨?_, ?_⟩
      · simp only [stepAuth, hc]
        exact le_trans (List.length_erase_le _ _) hlen
      · intro x hx
        simp only [stepAuth, hc] at hx ⊢
        have hx2 := hmem x (List.mem_of_mem_erase hx)
        rw [hc] at hx2
        exact hx2

theorem subInv_stepInit (sess : Option String) (resp : SelectResp) (s : HomeState)
    (hc : s.openChannels = []) : subInv (stepInit sess resp s) := by
  cases sess with
  | none => exact ⟨by simp [stepInit, hc], by simp [stepInit, hc]⟩
  | some uid =>
    refine ⟨?_, ?_⟩
    · simp [stepInit, setupRealtime, fetchBookmarks_openChannels, hc]
    · intro x hx
      simp only [stepInit, setupRealtime, fetchBookmarks_openChannels,
        fetchBookmarks_nextHandle, hc, List.mem_singleton] at hx
      simp [stepInit, setupRealtime, fetchBookmarks_nextHandle, hx]

theorem subInv_run_auth (evs : List Event) (hall : ∀ e ∈ evs, e.isAuth = true)
    (s : HomeState) (h : subInv s) : subInv (run s evs) := by
  induction evs generalizing s with
  | nil => exact h
  | cons ev rest ih =>
    cases ev with
    | initEv sess resp =>
      have := hall _ (List.mem_cons_self _ _)
      simp [Event.isAuth] at this
    | authEv e sess resp =>
      exact ih (fun x hx => hall x (List.mem_cons_of_mem _ hx)) _
        (subInv_stepAuth e sess resp s ⟨h.1, h.2⟩)

/-! ### Claims -/

/-- C1 (corrected): as stated over arbitrary interleavings the claim fails,
because the init continuation assigns a fresh channel unconditionally; the
counterexample below exhibits a schedule with two open handles. Amended
claim, proved here: when the session-handling block of init runs before the
auth events (the startup order in which getSession resolves before any
event fires), then after any sequence of SIGNED_IN, TOKEN_REFRESHED and
SIGNED_OUT events at most one subscription handle is open at any instant;
in particular SIGNED_IN and TOKEN_REFRESHED never open a second channel
while one is already stored. -/
theorem C1_single_subscription (sess : Option String) (resp : SelectResp)
    (evs : List Event) (hall : ∀ e ∈ evs, e.isAuth = true) :
    (run (step s0 (Event.initEv sess resp)) evs).openChannels.length ≤ 1 :=
  (subInv_run_auth evs hall _ (subInv_stepInit sess resp s0 rfl)).1

/-- Witness for C1 at the concrete auth-only sequence C1evs after an init
with a session for user u. -/
theorem C1_single_subscription_witness :
    (∀ e ∈ C1evs, e.isAuth = true) ∧
    (run (step s0 (Event.initEv (some "u") (SelectResp.ok (some []))))
        C1evs).openChannels.length ≤ 1 :=
  ⟨by decide, C1_single_subscription (some "u") (SelectResp.ok (some [])) C1evs (by decide)⟩

/-- C1 counterexample: if a SIGNED_IN event is handled while getSession is
still pending and the init continuation then resolves with a session, the
handler opens one channel and init opens a second without closing the
first: two handles are open at once, refuting the claim over arbitrary
event orders. -/
theorem C1_counterexample : (run s0 C1bad).openChannels.length = 2 := by decide

/-- C2 (code bug): signOut does null the identity and empty the collection,
but fetchBookmarks applies its result without comparing the identity it was
started with against the current identity; a stale fetch for user u that
resolves after sign-out (when the current identity is none, not u)
repopulates the cleared collection. -/
theorem C2_stale_fetch_bug :
    (signOut sC2).user = none ∧ (signOut sC2).bookmarks = [] ∧
    (signOut sC2).user ≠ some "u" ∧
    (fetchBookmarks "u" (SelectResp.ok (some [bU])) (signOut sC2)).bookmarks = [bU] :=
  ⟨rfl, rfl, by decide, rfl⟩

/-- C3 counterexample: fetchBookmarks applies no owner predicate of its own
to the data the gateway returns; if the gateway misbehaves and returns a
record owned by mallory to a fetch for alice, that record lands in the
collection. -/
theorem C3_counterexample :
    mallory.user_id ≠ "alice" ∧
    mallory ∈ (fetchBookmarks "alice" (SelectResp.ok (some [mallory])) s0).bookmarks := by
  decide

/-- C3 (corrected): the owner filter lives in the query, not in the client.
fetchBookmarks sends eq(user_id, userId) as part of its select, and when
the gateway honors that filter no foreign record can appear in the
resulting collection; but the client applies no second predicate to the
response, so isolation rests on the gateway applying the requested filter. -/
theorem C3_owner_isolation (userId : String) (db : List Bookmark) (s : HomeState) :
    (fetchBookmarksCall userId).eqUserId = some userId ∧
    ∀ b ∈ (fetchBookmarks userId
        (SelectResp.ok (some (gatewayFilter db (fetchBookmarksCall userId)))) s).bookmarks,
      b.user_id = userId := by
  refine ⟨rfl, ?_⟩
  intro b hb
  simp only [fetchBookmarks, Option.getD_some] at hb
  simp only [gatewayFilter, fetchBookmarksCall, List.mem_filter] at hb
  exact eq_of_beq hb.2

/-- C4 counterexample: in the reachable leak state produced by the init
race (the C1bad schedule), two channels are open and the variable stores
only the second; handling SIGNED_OUT removes just the stored channel, so
the first subscription stays open — refuting the unconditional claim that
SIGNED_OUT closes any open subscription. -/
theorem C4_counterexample :
    (stepAuth AuthEvent.signedOut none (SelectResp.ok none) (run s0 C1bad)).openChannels
        = [0] ∧
    (stepAuth AuthEvent.signedOut none (SelectResp.ok none) (run s0 C1bad)).openChannels
        ≠ [] := by
  refine ⟨by decide, by decide⟩

/-- C4 (corrected): handling SIGNED_OUT nulls the identity, empties the
bookmark collection, and removes the channel stored in the variable; from
any state satisfying the single-subscription invariant — which holds
whenever the init session block ran before the auth events — that closes
every open channel. In the leak state of the counterexample above the
channel the variable no longer stores is not closed. -/
theorem C4_signed_out_clears (s : HomeState) (sess : Option String) (resp : SelectResp)
    (h : subInv s) :
    (stepAuth AuthEvent.signedOut sess resp s).user = none ∧
    (stepAuth AuthEvent.signedOut sess resp s).bookmarks = [] ∧
    (stepAuth AuthEvent.signedOut sess resp s).openChannels = [] := by
  obtain ⟨hlen, hmem⟩ := h
  cases hc : s.channelVar with
  | none =>
    have hempty : s.openChannels = [] := by
      cases hO : s.openChannels with
      | nil => rfl
      | cons a l =>
        have ha := hmem a (by rw [hO]; exact List.mem_cons_self a l)
        rw [hc] at ha
        exact Option.noConfusion ha
    exact ⟨by simp [stepAuth, hc], by simp [stepAuth, hc], by simp [stepAuth, hc, hempty]⟩
  | some ch =>
    have hsub : s.openChannels = [] ∨ s.openChannels = [ch] := by
      cases hO : s.openChannels with
      | nil => exact Or.inl rfl
      | cons a l =>
        have ha := hmem a (by rw [hO]; exact List.mem_cons_self a l)
        rw [hc] at ha
        have hax : a = ch := by
          injection ha with h2
          exact h2.symm
        cases l with
        | nil => exact Or.inr (by rw [hax])
        | cons b m =>
          rw [hO] at hlen
          simp at hlen
    refine ⟨by simp [stepAuth, hc], by simp [stepAuth, hc], ?_⟩
    rcases hsub with h1 | h1 <;> simp [stepAuth, hc, h1]

/-- Witness for C4 at the concrete signed-in state sC4 with one channel. -/
theorem C4_signed_out_clears_witness :
    subInv sC4 ∧
    (stepAuth AuthEvent.signedOut none (SelectResp.ok none) sC4).user = none ∧
    (stepAuth AuthEvent.signedOut none (SelectResp.ok none) sC4).bookmarks = [] ∧
    (stepAuth AuthEvent.signedOut none (SelectResp.ok none) sC4).openChannels = [] :=
  ⟨⟨by decide, by decide⟩,
   C4_signed_out_clears sC4 none (SelectResp.ok none) ⟨by decide, by decide⟩⟩

/-- C5 (confirmed): fetchBookmarks is idempotent: running it twice against
the same gateway response (no intervening mutation, so the backend answer
is unchanged) leaves the same collection as running it once. -/
theorem C5_refresh_idempotent (uid : String) (resp : SelectResp) (s : HomeState) :
    (fetchBookmarks uid resp (fetchBookmarks uid resp s)).bookmarks =
      (fetchBookmarks uid resp s).bookmarks := by
  cases resp <;> simp [fetchBookmarks]

/-- C6 (confirmed): when the select errors, fetchBookmarks leaves the
previous collection fully unchanged and appends the error to the console
log; it is a total function into HomeState, so no exceptional outcome is
passed further up. -/
theorem C6_refresh_error (uid e : String) (s : HomeState) :
    (fetchBookmarks uid (SelectResp.err e) s).bookmarks = s.bookmarks ∧
    (fetchBookmarks uid (SelectResp.err e) s).log = e :: s.log ∧
    (fetchBookmarks uid (SelectResp.err e) s).user = s.user :=
  ⟨rfl, rfl, rfl⟩

/-- C7 (confirmed): addBookmark with an empty title, an empty url, or a
null user returns the state untouched and issues no gateway call. -/
theorem C7_add_validation (s : HomeState) (resp : Option String)
    (h : s.title = "" ∨ s.url = "" ∨ s.user = none) :
    addBookmark s resp = (s, none) := by
  unfold addBookmark
  rw [if_pos h]

/-- Witness for C7 at the concrete state sC7 whose title input is empty. -/
theorem C7_add_validation_witness :
    (sC7.title = "" ∨ sC7.url = "" ∨ sC7.user = none) ∧
    addBookmark sC7 none = (sC7, none) :=
  ⟨Or.inl rfl, C7_add_validation sC7 none (Or.inl rfl)⟩

/-- C8 counterexample: on a failing delete the handler returns with the
state exactly as it was, so in particular nothing is appended to the
console log: the claim that the error is logged on failure is false. -/
theorem C8_counterexample :
    (deleteBookmark "b1" (some "boom") (SelectResp.ok none) sC8).1 = sC8 ∧
    sC8.log = [] :=
  ⟨rfl, rfl⟩

/-- C8 (corrected): deleteBookmark issues a delete filtered by both the
record id and the owner, so a record not owned by the caller survives any
backend that applies the requested filters; on success it runs
fetchBookmarks for the current user; on failure the state, and hence the
collection, is left unchanged — but the error is silently dropped, not
logged. -/
theorem C8_remove (id derr : String) (selResp : SelectResp) (s : HomeState) (uid : String)
    (h : s.user = some uid) :
    (deleteBookmark id none selResp s).2
        = some { table := "bookmarks", eqId := id, eqUserId := uid } ∧
    (deleteBookmark id none selResp s).1 = fetchBookmarks uid selResp s ∧
    (deleteBookmark id (some derr) selResp s).1 = s ∧
    ∀ db : List Bookmark, ∀ b ∈ db, b.user_id ≠ uid →
      b ∈ applyDelete db { table := "bookmarks", eqId := id, eqUserId := uid } := by
  refine ⟨by simp [deleteBookmark, h], by simp [deleteBookmark, h],
    by simp [deleteBookmark, h], ?_⟩
  intro db b hb hne
  simp only [applyDelete, List.mem_filter]
  refine ⟨hb, ?_⟩
  cases hbe : b.user_id == uid with
  | true => exact absurd (eq_of_beq hbe) hne
  | false => simp [hbe]

/-- Witness for C8 at the concrete signed-in state sC8. -/
theorem C8_remove_witness :
    sC8.user = some "u" ∧
    (deleteBookmark "b1" none (SelectResp.ok none) sC8).2
        = some { table := "bookmarks", eqId := "b1", eqUserId := "u" } :=
  ⟨rfl, (C8_remove "b1" "x" (SelectResp.ok none) sC8 "u" rfl).1⟩

/-- C9 (confirmed): signIn leaves both the identity and the bookmark
collection untouched, whether the OAuth initiation failed (it only logs)
or succeeded (identity arrives later through the auth event callback or
the init session lookup, never here). -/
theorem C9_sign_in_frame (res : Option String) (s : HomeState) :
    (signIn res s).user = s.user ∧ (signIn res s).bookmarks = s.bookmarks := by
  cases res <;> simp [signIn]

/-- C10 (confirmed): a successful select whose data field is null makes
fetchBookmarks replace the collection with the empty list rather than
keeping the previous one. -/
theorem C10_empty_read_clears (uid : String) (s : HomeState) :
    (fetchBookmarks uid (SelectResp.ok none) s).bookmarks = [] := rfl
